import Mathlib

/-
Shallow embedding of the Go package `checkpoint` (file `checkpoint.go` of
aligator/checkpoint).  The package decorates Go errors with caller
information: the struct `Checkpoint` holds the decorating error (`err`),
the previous error (`prev`), and the captured caller location
(`callerOk`, `file`, `line`).  The builders `From` and `Wrap` run the
supplied `Option` functions first and then construct a `Checkpoint`
value; `Checkpoint` exposes `Error`, `Unwrap`, `Is`, `As`, `File` and
`Line`.
-/

set_option autoImplicit false

/--
Model of the Go `error` interface values reachable through this package:
`nilE` is the nil interface; `defined id msg` is a leaf error such as one
produced by `errors.New` (the `id` models pointer identity: two errors
created by distinct `errors.New` calls are distinct even for equal
messages); `eofE` and `unexpectedEOF` are the sentinels `io.EOF` and
`io.ErrUnexpectedEOF`; `checkpoint err prev callerOk file line` is a
`Checkpoint` struct value boxed in the interface.  `From` and `Wrap`
always box `Checkpoint` values — never `*Checkpoint` pointers — so the
type assertion `prev.(*Checkpoint)` inside `Checkpoint.Error` yields
`ok = false` on every value of this type.  Go `==` on these interface
values coincides with structural equality of `Err`.
-/
inductive Err where
  | nilE : Err
  | defined (id : Nat) (msg : String) : Err
  | eofE : Err
  | unexpectedEOF : Err
  | checkpoint (err : Err) (prev : Err) (callerOk : Bool) (file : String) (line : Nat) : Err
deriving DecidableEq

/-- Go type `Option = func(err error) error` from the source. -/
abbrev OptFn := Err → Err

/-- Result of `runtime.Caller(1)` at the builder call site: the `ok` flag,
the (possibly path-qualified) file name and the line number. -/
structure CallerInfo where
  ok : Bool
  file : String
  line : Nat

/-- Model of Go `filepath.Base` (unix separators): empty path gives ".",
trailing separators are dropped, the part after the last separator is
returned, and an all-separator path gives "/". -/
def filepathBase (path : String) : String :=
  if path = "" then "."
  else
    let noTrail := (path.toList.reverse.dropWhile (fun c => c == '/')).reverse
    if noTrail = [] then "/"
    else String.mk (noTrail.reverse.takeWhile (fun c => c != '/')).reverse

/-- The `IgnoreEOF` option from the source: returns `io.EOF` and
`io.ErrUnexpectedEOF` directly (compared by identity, `==`) and nil for
every other error. -/
def IgnoreEOF : OptFn := fun err =>
  if err = Err.eofE then Err.eofE
  else if err = Err.unexpectedEOF then Err.unexpectedEOF
  else Err.nilE

/-- Builder `From(err, options...)`: run each option on `err` in order and
return the first non-nil result; otherwise return nil for nil `err`;
otherwise build a `Checkpoint` with the captured caller information (the
caller is passed explicitly here, standing for `runtime.Caller(1)`). -/
def From (caller : CallerInfo) (err : Err) : List OptFn → Err
  | [] =>
    if err = Err.nilE then Err.nilE
    else Err.checkpoint err Err.nilE caller.ok (filepathBase caller.file) caller.line
  | o :: os =>
    if o err ≠ Err.nilE then o err else From caller err os

/-- Builder `Wrap(prev, err, options...)`: run each option on `err` in
order and return the first non-nil result; otherwise return nil for nil
`prev`; otherwise build a `Checkpoint` with `err` and `prev` and the
captured caller information. -/
def Wrap (caller : CallerInfo) (prev err : Err) : List OptFn → Err
  | [] =>
    if prev = Err.nilE then Err.nilE
    else Err.checkpoint err prev caller.ok (filepathBase caller.file) caller.line
  | o :: os =>
    if o err ≠ Err.nilE then o err else Wrap caller prev err os

/-- Model of `strings.ReplaceAll(s, "\n", "\n\t")` — the one call made by
`Checkpoint.Error` — specialized to this fixed one-character pattern:
every newline character gets a tab inserted after it. -/
def replaceNl (s : String) : String :=
  String.mk (s.toList.foldr (fun c acc => if c = '\n' then '\n' :: '\t' :: acc else c :: acc) [])

/--
Rendering: on a `checkpoint` this is `Checkpoint.Error` from the source;
on the other constructors it is what `fmt.Sprintf("%v", ·)` produces for
that error value (the message of a leaf error, "EOF" for `io.EOF`,
"unexpected EOF" for `io.ErrUnexpectedEOF`, and "&lt;nil&gt;"-style `<nil>`
for the nil interface).  In the source, when `prev` is non-nil its string
is wrapped as a foreign error unless the type assertion
`e.prev.(*Checkpoint)` succeeds; the builders box `Checkpoint` values,
never pointers, so on every value of `Err` that assertion fails and the
"File: unknown" plus per-line tab wrapping is applied to every non-nil
`prev`.
-/
def Err.Error : Err → String
  | .nilE => "<nil>"
  | .defined _ msg => msg
  | .eofE => "EOF"
  | .unexpectedEOF => "unexpected EOF"
  | .checkpoint err prev callerOk file line =>
    let prevErrString : String :=
      if prev = Err.nilE then ""
      else "File: unknown\n\t" ++ replaceNl (Err.Error prev)
    if callerOk then
      "File: " ++ file ++ ":" ++ toString line ++ "\n\t" ++ Err.Error err ++ "\n" ++ prevErrString
    else
      "File: unknown\n\t" ++ Err.Error err ++ "\n" ++ prevErrString

/--
The loop of Go `errors.Is(err, target)` for non-nil `target`: at each
step it tests `err == target`; then, when `err` has an `Is` method (only
`Checkpoint` does here), it calls it — `Checkpoint.Is(target)` is
`errors.Is(e.err, target)`, inlined below with its own nil-target guard —
and finally follows `Unwrap` (only `Checkpoint` has it, returning
`prev`), stopping with false at nil or at an error with no `Unwrap`.
-/
def isLoop : Err → Err → Bool
  | .nilE, _ => false
  | .defined i m, t => decide (Err.defined i m = t)
  | .eofE, t => decide (Err.eofE = t)
  | .unexpectedEOF, t => decide (Err.unexpectedEOF = t)
  | .checkpoint err prev callerOk file line, t =>
    decide (Err.checkpoint err prev callerOk file line = t)
      || (if t = Err.nilE then decide (err = Err.nilE) else isLoop err t)
      || isLoop prev t

/-- Go `errors.Is(e, t)`: for nil `t` it is `e == t`; otherwise the
chain-walking loop `isLoop`. -/
def errorsIs (e t : Err) : Bool :=
  if t = Err.nilE then decide (e = Err.nilE) else isLoop e t

/-- The dynamic Go types a target slot of `errors.As` can ask for in this
embedding: the leaf error type (`*errorString`, covering `errors.New`
results and the io sentinels) and the `Checkpoint` type. -/
inductive GoTy where
  | errorStringTy : GoTy
  | checkpointTy : GoTy
deriving DecidableEq

/-- Go `errors.As(e, slot)` for a slot of type `ty`: walk the chain; at
each step succeed if the dynamic type matches; `Checkpoint` additionally
offers its `As` method — `errors.As(e.err, slot)` — and its `Unwrap`. -/
def errorsAs : Err → GoTy → Bool
  | .nilE, _ => false
  | .defined _ _, ty => decide (ty = GoTy.errorStringTy)
  | .eofE, ty => decide (ty = GoTy.errorStringTy)
  | .unexpectedEOF, ty => decide (ty = GoTy.errorStringTy)
  | .checkpoint err prev _ _ _, ty =>
    decide (ty = GoTy.checkpointTy) || errorsAs err ty || errorsAs prev ty

/-- Method `Checkpoint.Unwrap`: returns `e.prev`.  On non-checkpoint
values this is `errors.Unwrap` of an error without the method: nil. -/
def Err.Unwrap : Err → Err
  | .checkpoint _ prev _ _ _ => prev
  | _ => Err.nilE

/-- Method `Checkpoint.Is(target)`: `errors.Is(e.err, target)` — the test
is applied to the `err` field only, never to `prev`.  Only `Checkpoint`
has this method; the other constructors yield false. -/
def Err.Is : Err → Err → Bool
  | .checkpoint err _ _ _ _, t => errorsIs err t
  | _, _ => false

/-- Method `Checkpoint.As(target)`: `errors.As(e.err, target)` — applied
to the `err` field only.  Only `Checkpoint` has this method. -/
def Err.As : Err → GoTy → Bool
  | .checkpoint err _ _ _ _, ty => errorsAs err ty
  | _, _ => false

/-- Method `Checkpoint.File`: returns `e.file`. -/
def Err.File : Err → String
  | .checkpoint _ _ _ file _ => file
  | _ => ""

/-- Method `Checkpoint.Line`: returns `e.line`. -/
def Err.Line : Err → Nat
  | .checkpoint _ _ _ _ line => line
  | _ => 0

/-- The value produced by the option loop shared by `From` and `Wrap`:
the result of the first option (in the supplied order) whose result on
`err` is non-nil, or `none` when every option returns nil. -/
def firstOverride (err : Err) : List OptFn → Option Err
  | [] => none
  | o :: os => if o err ≠ Err.nilE then some (o err) else firstOverride err os

/-- State-passing view of `Checkpoint.Error`.  Every public method of
`Checkpoint` in the source has a value receiver and a body with no
assignment to any field, so its big-step effect on the receiver is the
identity: each of these functions returns the method result paired with
the receiver as it stands after the call. -/
def errorCall (e : Err) : String × Err := (Err.Error e, e)

/-- State-passing view of `Checkpoint.Unwrap`; see `errorCall`. -/
def unwrapCall (e : Err) : Err × Err := (Err.Unwrap e, e)

/-- State-passing view of `Checkpoint.Is`; see `errorCall`. -/
def isCall (e : Err) (t : Err) : Bool × Err := (Err.Is e t, e)

/-- State-passing view of `Checkpoint.As`; see `errorCall`. -/
def asCall (e : Err) (ty : GoTy) : Bool × Err := (Err.As e ty, e)

/-- State-passing view of `Checkpoint.File`; see `errorCall`. -/
def fileCall (e : Err) : String × Err := (Err.File e, e)

/-- State-passing view of `Checkpoint.Line`; see `errorCall`. -/
def lineCall (e : Err) : Nat × Err := (Err.Line e, e)

/-- A concrete call site used by the witness theorems. -/
def caller0 : CallerInfo := ⟨true, "main.go", 5⟩

/-- An option that overrides every input with a fixed non-nil error. -/
def overrideOpt : OptFn := fun _ => Err.defined 99 "override"

/-- Call site `x.go:10` of the concrete rendering scenario. -/
def callerX10 : CallerInfo := ⟨true, "x.go", 10⟩

/-- Call site `x.go:11` of the concrete rendering scenario. -/
def callerX11 : CallerInfo := ⟨true, "x.go", 11⟩

/-- The error `e1` of the concrete rendering scenario, rendering as "A". -/
def eA : Err := Err.defined 1 "A"

/-- The error `e2` of the concrete rendering scenario, rendering as "B". -/
def eB : Err := Err.defined 2 "B"

/-- The node `n = From(e1)` built at `x.go:10`. -/
def nodeA : Err := From callerX10 eA []

/-- The node `n2 = Wrap(n, e2)` built at `x.go:11`. -/
def nodeBA : Err := Wrap callerX11 nodeA eB []

/-- The option loop of `From`: when some option fires, `From` returns the
first non-nil option result; recorded through `firstOverride`. -/
theorem from_some (caller : CallerInfo) (err v : Err) :
    ∀ opts : List OptFn, firstOverride err opts = some v → From caller err opts = v
  | [], h => by simp [firstOverride] at h
  | o :: os, h => by
    by_cases hoe : o err = Err.nilE
    · have h2 : firstOverride err os = some v := by simpa [firstOverride, hoe] using h
      simpa [From, hoe] using from_some caller err v os h2
    · have h2 : o err = v := by simpa [firstOverride, hoe] using h
      simp only [From]
      rw [if_pos hoe]
      exact h2

/-- The option loop of `From`: when no option fires, `From` behaves as
with no options at all. -/
theorem from_none (caller : CallerInfo) (err : Err) :
    ∀ opts : List OptFn, firstOverride err opts = none → From caller err opts = From caller err []
  | [], _ => rfl
  | o :: os, h => by
    by_cases hoe : o err = Err.nilE
    · have h2 : firstOverride err os = none := by simpa [firstOverride, hoe] using h
      simpa [From, hoe] using from_none caller err os h2
    · simp [firstOverride, hoe] at h

/-- The option loop of `Wrap`: when some option fires, `Wrap` returns the
first non-nil option result, independently of `prev`. -/
theorem wrap_some (caller : CallerInfo) (prev err v : Err) :
    ∀ opts : List OptFn, firstOverride err opts = some v → Wrap caller prev err opts = v
  | [], h => by simp [firstOverride] at h
  | o :: os, h => by
    by_cases hoe : o err = Err.nilE
    · have h2 : firstOverride err os = some v := by simpa [firstOverride, hoe] using h
      simpa [Wrap, hoe] using wrap_some caller prev err v os h2
    · have h2 : o err = v := by simpa [firstOverride, hoe] using h
      simp only [Wrap]
      rw [if_pos hoe]
      exact h2

/-- The option loop of `Wrap`: when no option fires, `Wrap` behaves as
with no options at all. -/
theorem wrap_none (caller : CallerInfo) (prev err : Err) :
    ∀ opts : List OptFn, firstOverride err opts = none → Wrap caller prev err opts = Wrap caller prev err []
  | [], _ => rfl
  | o :: os, h => by
    by_cases hoe : o err = Err.nilE
    · have h2 : firstOverride err os = none := by simpa [firstOverride, hoe] using h
      simpa [Wrap, hoe] using wrap_none caller prev err os h2
    · simp [firstOverride, hoe] at h

/-- Every non-nil error matches itself in the `errors.Is` loop (the
first, equality, test of the loop fires at once). -/
theorem isLoop_self : ∀ e : Err, e ≠ Err.nilE → isLoop e e = true
  | Err.defined i m, _ => by simp [isLoop]
  | Err.eofE, _ => by simp [isLoop]
  | Err.unexpectedEOF, _ => by simp [isLoop]
  | Err.checkpoint a p ok f l, _ => by simp [isLoop]
  | Err.nilE, h => absurd rfl h

/-- `errors.Is(e, e)` holds for every non-nil `e`. -/
theorem errorsIs_self (e : Err) (h : e ≠ Err.nilE) : errorsIs e e = true := by
  unfold errorsIs
  rw [if_neg h]
  exact isLoop_self e h

/-- Sentinel pass-through of `From`: with options whose prefix before
`IgnoreEOF` stays nil on a fixed point `s` of `IgnoreEOF`, the builder
returns `s` itself. -/
theorem from_sentinel_aux (caller : CallerInfo) (s : Err) (hid : IgnoreEOF s = s) (hsn : s ≠ Err.nilE) :
    ∀ pre post : List OptFn, (∀ o ∈ pre, o s = Err.nilE) →
      From caller s (pre ++ IgnoreEOF :: post) = s
  | [], post, _ => by simp [From, hid, hsn]
  | o :: os, post, hpre => by
    have ho : o s = Err.nilE := hpre o (List.mem_cons_self o os)
    have ih := from_sentinel_aux caller s hid hsn os post
      (fun q hq => hpre q (List.mem_cons_of_mem o hq))
    simpa [From, ho] using ih

/-- C1: in the concrete two-level scenario, `From(e1)` at `x.go:10`
renders as claimed, but `Wrap(n, e2)` at `x.go:11` does not insert the
chain-node cause verbatim: because `Checkpoint.Error` type-asserts
`prev.(*Checkpoint)` while the builders box `Checkpoint` values, the
cause is rendered in the foreign-error format, with a "File: unknown"
line and one extra tab on every line — so the rendering does not start
with the claimed two-level block. -/
theorem c1_render_divergence :
    Err.Error nodeA = "File: x.go:10\n\tA\n" ∧
    Err.Error nodeBA = "File: x.go:11\n\tB\nFile: unknown\n\tFile: x.go:10\n\t\tA\n\t" ∧
    (("File: x.go:11\n\tB\nFile: x.go:10\n\tA\n".toList).isPrefixOf ((Err.Error nodeBA).toList)) = false := by
  refine ⟨by decide, by decide, by decide⟩

/-- C2: for both `From` and `Wrap` the options are applied to the `err`
argument in the order supplied; the first option returning a non-nil
error determines the whole result (for `Wrap` independently of `prev`,
which is a free variable here), and if every option returns nil the
builders behave exactly as with no options, i.e. normal chain
construction proceeds. -/
theorem c2_options_contract (caller : CallerInfo) (err prev : Err) (opts : List OptFn) :
    (∀ v : Err, firstOverride err opts = some v →
      From caller err opts = v ∧ Wrap caller prev err opts = v) ∧
    (firstOverride err opts = none →
      From caller err opts = From caller err [] ∧
      Wrap caller prev err opts = Wrap caller prev err []) :=
  ⟨fun v h => ⟨from_some caller err v opts h, wrap_some caller prev err v opts h⟩,
   fun h => ⟨from_none caller err opts h, wrap_none caller prev err opts h⟩⟩

/-- Witness for C2 at a concrete input: the second supplied option is the
first to return non-nil and its value is the result of both builders. -/
theorem c2_options_contract_witness :
    From caller0 Err.eofE [fun _ => Err.nilE, fun _ => Err.defined 7 "ov"] = Err.defined 7 "ov" ∧
    Wrap caller0 (Err.defined 1 "p") Err.eofE [fun _ => Err.nilE, fun _ => Err.defined 7 "ov"] = Err.defined 7 "ov" :=
  (c2_options_contract caller0 Err.eofE (Err.defined 1 "p")
    [fun _ => Err.nilE, fun _ => Err.defined 7 "ov"]).1 (Err.defined 7 "ov") (by decide)

/-- C3: absent in yields absent out — when no option short-circuits,
`From` of nil is nil, and `Wrap` of a nil `prev` is nil for every `err`;
no node is created in either case. -/
theorem c3_absent_propagation (caller : CallerInfo) (opts : List OptFn) (err : Err) :
    (firstOverride Err.nilE opts = none → From caller Err.nilE opts = Err.nilE) ∧
    (firstOverride err opts = none → Wrap caller Err.nilE err opts = Err.nilE) := by
  constructor
  · intro h
    rw [from_none caller Err.nilE opts h]
    simp [From]
  · intro h
    rw [wrap_none caller Err.nilE err opts h]
    simp [Wrap]

/-- Witness for C3 at a concrete input: `IgnoreEOF` does not
short-circuit on nil or on a plain defined error, and both builders
return nil. -/
theorem c3_absent_propagation_witness :
    From caller0 Err.nilE [IgnoreEOF] = Err.nilE ∧
    Wrap caller0 Err.nilE (Err.defined 1 "d") [IgnoreEOF] = Err.nilE :=
  ⟨(c3_absent_propagation caller0 [IgnoreEOF] (Err.defined 1 "d")).1 (by decide),
   (c3_absent_propagation caller0 [IgnoreEOF] (Err.defined 1 "d")).2 (by decide)⟩

/-- C4: for a present `cause` and no short-circuiting option,
`Wrap(cause, nil)` still constructs a node: the result is the checkpoint
with nil decorating error and `cause` as predecessor, it is not nil, and
its `Unwrap` is `cause`. -/
theorem c4_wrap_absent_error (caller : CallerInfo) (cause : Err) (opts : List OptFn)
    (hc : cause ≠ Err.nilE) (hop : firstOverride Err.nilE opts = none) :
    Wrap caller cause Err.nilE opts =
      Err.checkpoint Err.nilE cause caller.ok (filepathBase caller.file) caller.line ∧
    Wrap caller cause Err.nilE opts ≠ Err.nilE ∧
    (Wrap caller cause Err.nilE opts).Unwrap = cause := by
  rw [wrap_none caller cause Err.nilE opts hop]
  refine ⟨by simp [Wrap, hc], by simp [Wrap, hc], by simp [Wrap, hc, Err.Unwrap]⟩

/-- Witness for C4 at a concrete input. -/
theorem c4_wrap_absent_error_witness :
    Wrap caller0 (Err.defined 1 "c") Err.nilE [IgnoreEOF] =
      Err.checkpoint Err.nilE (Err.defined 1 "c") caller0.ok (filepathBase caller0.file) caller0.line ∧
    Wrap caller0 (Err.defined 1 "c") Err.nilE [IgnoreEOF] ≠ Err.nilE ∧
    (Wrap caller0 (Err.defined 1 "c") Err.nilE [IgnoreEOF]).Unwrap = Err.defined 1 "c" :=
  c4_wrap_absent_error caller0 (Err.defined 1 "c") [IgnoreEOF] (by decide) (by decide)

/-- C5 counterexample: the claim quantifies over every option set that
contains `IgnoreEOF`, but an option placed before `IgnoreEOF` that
returns a non-nil override wins, so `From` applied to the sentinel
`io.EOF` returns the override and not the sentinel. -/
theorem c5_counterexample :
    IgnoreEOF ∈ [overrideOpt, IgnoreEOF] ∧
    From caller0 Err.eofE [overrideOpt, IgnoreEOF] = Err.defined 99 "override" ∧
    Err.defined 99 "override" ≠ Err.eofE :=
  ⟨List.mem_cons_of_mem overrideOpt (List.mem_cons_self IgnoreEOF []), by decide, by decide⟩

/-- C5 amended: for an option set containing `IgnoreEOF` in which every
option placed before `IgnoreEOF` returns nil on the sentinel (in
particular the set consisting of `IgnoreEOF` alone), `From` applied to
`io.EOF` or `io.ErrUnexpectedEOF` returns that exact sentinel value
itself, and in particular not a chain node. -/
theorem c5_sentinel_identity (caller : CallerInfo) (pre post : List OptFn) (s : Err)
    (hs : s = Err.eofE ∨ s = Err.unexpectedEOF)
    (hpre : ∀ o ∈ pre, o s = Err.nilE) :
    From caller s (pre ++ IgnoreEOF :: post) = s ∧
    ∀ (a p : Err) (ok : Bool) (f : String) (l : Nat),
      From caller s (pre ++ IgnoreEOF :: post) ≠ Err.checkpoint a p ok f l := by
  have hid : IgnoreEOF s = s := by
    rcases hs with h | h <;> subst h <;> rfl
  have hsn : s ≠ Err.nilE := by
    rcases hs with h | h <;> subst h <;> simp
  have main := from_sentinel_aux caller s hid hsn pre post hpre
  refine ⟨main, ?_⟩
  intro a p ok f l hcp
  rw [main] at hcp
  rcases hs with h | h <;> subst h <;> cases hcp

/-- Witness for the amended C5 at a concrete input: `IgnoreEOF` alone. -/
theorem c5_sentinel_identity_witness :
    From caller0 Err.eofE ([] ++ IgnoreEOF :: []) = Err.eofE :=
  (c5_sentinel_identity caller0 [] [] Err.eofE (Or.inl rfl) (fun _ h => nomatch h)).1

/-- C6: the node built by `Wrap(cause, e)` tests `Is` and `As` only
against its decorating error `e`, never against `cause`: when the target
is not reachable inside `e` but is reachable inside `cause`, `Is` is
false, and likewise `As` for a type not found inside `e`; `cause` is
exposed only through `Unwrap`. -/
theorem c6_is_annotation_only (caller : CallerInfo) (cause e t : Err) (ty : GoTy)
    (ht : t ≠ Err.nilE) (h1 : errorsIs e t = false) (h2 : errorsIs cause t = true)
    (h3 : errorsAs e ty = false) :
    (Wrap caller cause e []).Is t = false ∧
    (Wrap caller cause e []).As ty = false ∧
    (Wrap caller cause e []).Unwrap = cause := by
  have hc : cause ≠ Err.nilE := by
    intro h
    subst h
    simp [errorsIs, ht, isLoop] at h2
  refine ⟨?_, ?_, ?_⟩ <;> simp [Wrap, hc, Err.Is, Err.As, Err.Unwrap, h1, h3]

/-- Witness for C6 at a concrete input: the target sits only inside the
cause (itself a chain node), and the requested type `Checkpoint` occurs
only in the cause, not in the plain defined decorating error. -/
theorem c6_is_annotation_only_witness :
    (Wrap caller0 (Err.checkpoint (Err.defined 1 "a") Err.nilE true "f.go" 1) (Err.defined 2 "b") []).Is (Err.defined 1 "a") = false ∧
    (Wrap caller0 (Err.checkpoint (Err.defined 1 "a") Err.nilE true "f.go" 1) (Err.defined 2 "b") []).As GoTy.checkpointTy = false ∧
    (Wrap caller0 (Err.checkpoint (Err.defined 1 "a") Err.nilE true "f.go" 1) (Err.defined 2 "b") []).Unwrap = Err.checkpoint (Err.defined 1 "a") Err.nilE true "f.go" 1 :=
  c6_is_annotation_only caller0 (Err.checkpoint (Err.defined 1 "a") Err.nilE true "f.go" 1)
    (Err.defined 2 "b") (Err.defined 1 "a") GoTy.checkpointTy
    (by decide) (by decide) (by decide) (by decide)

/-- C7: for every non-nil `e` and no short-circuiting option, the node
`From(e)` has nil `Unwrap` (its cause is absent) and satisfies `Is e`
(the decorating error equals `e`). -/
theorem c7_from_unwrap_is (caller : CallerInfo) (e : Err) (opts : List OptFn)
    (he : e ≠ Err.nilE) (hop : firstOverride e opts = none) :
    (From caller e opts).Unwrap = Err.nilE ∧ (From caller e opts).Is e = true := by
  rw [from_none caller e opts hop]
  refine ⟨?_, ?_⟩
  · simp [From, he, Err.Unwrap]
  · simp [From, he, Err.Is, errorsIs_self e he]

/-- Witness for C7 at a concrete input. -/
theorem c7_from_unwrap_is_witness :
    (From caller0 (Err.defined 3 "z") [IgnoreEOF]).Unwrap = Err.nilE ∧
    (From caller0 (Err.defined 3 "z") [IgnoreEOF]).Is (Err.defined 3 "z") = true :=
  c7_from_unwrap_is caller0 (Err.defined 3 "z") [IgnoreEOF] (by decide) (by decide)

/-- C8: wrapping three levels over a nil base yields nil, so `e1` is not
a member of the result; over a present base the same nesting makes `e1`
a chain member; and for the three-level chain
`n3 = Wrap(Wrap(From(e1), e2), e3)`, `n3.Is e3` holds and two `Unwrap`
steps from `n3` reach a node satisfying `Is e1`. -/
theorem c8_chain_depth (caller : CallerInfo) (base e0 e1 e2 e3 : Err)
    (hb : base ≠ Err.nilE) (h1 : e1 ≠ Err.nilE) (h3 : e3 ≠ Err.nilE) :
    Wrap caller (Wrap caller (Wrap caller Err.nilE e0 []) e1 []) e2 [] = Err.nilE ∧
    errorsIs (Wrap caller (Wrap caller (Wrap caller Err.nilE e0 []) e1 []) e2 []) e1 = false ∧
    errorsIs (Wrap caller (Wrap caller (Wrap caller base e0 []) e1 []) e2 []) e1 = true ∧
    (Wrap caller (Wrap caller (From caller e1 []) e2 []) e3 []).Is e3 = true ∧
    ((Wrap caller (Wrap caller (From caller e1 []) e2 []) e3 []).Unwrap.Unwrap).Is e1 = true := by
  have hW : Wrap caller (Wrap caller (Wrap caller Err.nilE e0 []) e1 []) e2 [] = Err.nilE := by
    simp [Wrap]
  refine ⟨hW, ?_, ?_, ?_, ?_⟩
  · rw [hW]
    simp [errorsIs, h1, isLoop]
  · simp [Wrap, hb, errorsIs, h1, isLoop, isLoop_self e1 h1]
  · simp [From, Wrap, h1, Err.Is, errorsIs_self e3 h3]
  · simp [From, Wrap, h1, Err.Unwrap, Err.Is, errorsIs_self e1 h1]

/-- Witness for C8 at concrete inputs. -/
theorem c8_chain_depth_witness :
    (Wrap caller0 (Wrap caller0 (From caller0 (Err.defined 11 "x") []) (Err.defined 12 "y") []) (Err.defined 13 "z") []).Is (Err.defined 13 "z") = true :=
  (c8_chain_depth caller0 (Err.defined 9 "b") (Err.defined 10 "w") (Err.defined 11 "x")
    (Err.defined 12 "y") (Err.defined 13 "z") (by decide) (by decide) (by decide)).2.2.2.1

/-- C9: a chain node is immutable once constructed.  Every public method
of `Checkpoint` has a value receiver and never assigns a field: in the
state-passing view, each call leaves the receiver unchanged; every
observer is determined by the construction-time fields (`Unwrap`, `File`
and `Line` return `prev`, `file` and `line`, `Is` and `As` depend only
on `err`); a rendering performed after another observation is the same
as one performed directly; and a builder stores an existing node in the
new node unmodified, as its `Unwrap` shows. -/
theorem c9_immutable (a p : Err) (ok : Bool) (f : String) (l : Nat) (t : Err) (ty : GoTy) (c : CallerInfo) :
    (errorCall (Err.checkpoint a p ok f l)).2 = Err.checkpoint a p ok f l ∧
    (unwrapCall (Err.checkpoint a p ok f l)).2 = Err.checkpoint a p ok f l ∧
    (isCall (Err.checkpoint a p ok f l) t).2 = Err.checkpoint a p ok f l ∧
    (asCall (Err.checkpoint a p ok f l) ty).2 = Err.checkpoint a p ok f l ∧
    (fileCall (Err.checkpoint a p ok f l)).2 = Err.checkpoint a p ok f l ∧
    (lineCall (Err.checkpoint a p ok f l)).2 = Err.checkpoint a p ok f l ∧
    (Err.checkpoint a p ok f l).Unwrap = p ∧
    (Err.checkpoint a p ok f l).File = f ∧
    (Err.checkpoint a p ok f l).Line = l ∧
    (Err.checkpoint a p ok f l).Is t = errorsIs a t ∧
    (Err.checkpoint a p ok f l).As ty = errorsAs a ty ∧
    (errorCall ((isCall (Err.checkpoint a p ok f l) t).2)).1 = (errorCall (Err.checkpoint a p ok f l)).1 ∧
    (Wrap c (Err.checkpoint a p ok f l) t []).Unwrap = Err.checkpoint a p ok f l := by
  refine ⟨rfl, rfl, rfl, rfl, rfl, rfl, rfl, rfl, rfl, rfl, rfl, rfl, ?_⟩
  simp [Wrap, Err.Unwrap]

/-- C10: the option loop runs before the nil checks in both builders — a
non-nil option override is returned even when the builder would
otherwise return nil: `Wrap(nil, err, opts)` returns the override of
`err`, and `From(nil, opts)` returns the override of nil. -/
theorem c10_options_before_nil_check (caller : CallerInfo) (err v w : Err) (opts : List OptFn) :
    (firstOverride err opts = some v → Wrap caller Err.nilE err opts = v) ∧
    (firstOverride Err.nilE opts = some w → From caller Err.nilE opts = w) :=
  ⟨fun h => wrap_some caller Err.nilE err v opts h,
   fun h => from_some caller Err.nilE w opts h⟩

/-- Witness for C10 at a concrete input: an always-overriding option
makes both builders return its value even on nil inputs. -/
theorem c10_options_before_nil_check_witness :
    Wrap caller0 Err.nilE Err.eofE [fun _ => Err.defined 42 "w"] = Err.defined 42 "w" ∧
    From caller0 Err.nilE [fun _ => Err.defined 42 "w"] = Err.defined 42 "w" :=
  ⟨(c10_options_before_nil_check caller0 Err.eofE (Err.defined 42 "w") (Err.defined 42 "w")
      [fun _ => Err.defined 42 "w"]).1 (by decide),
   (c10_options_before_nil_check caller0 Err.eofE (Err.defined 42 "w") (Err.defined 42 "w")
      [fun _ => Err.defined 42 "w"]).2 (by decide)⟩
